import Mathlib

/-!
# Lunar Lander: input handling, fixed-timestep update and mission status

A shallow embedding of `src/main.cpp`: `process_input`, `update`, `render` and the
main loop.  `float` values are modelled as exact rationals.  The `Entity` class
(`Entity.h`) is not part of `main.cpp`; the member functions that `main.cpp` calls
are taken as parameters (`EntityOps`).
-/

namespace LunarLander

/-! ## Constants (lines 51-56) -/

/-- The constant `FIXED_TIMESTEP = 1.0f / 60.0f` (line 51). -/
def FIXED_TIMESTEP : ℚ := 1 / 60

/-- The constant `ACC_OF_GRAVITY = -9.81f` (line 52). -/
def ACC_OF_GRAVITY : ℚ := -981 / 100

/-- The constant `PLATFORM_COUNT = 4` (line 53). -/
abbrev PLATFORM_COUNT : Nat := 4

/-- The constant `INITIAL_FUEL = 500.0f` (line 55). -/
def INITIAL_FUEL : ℚ := 500

/-! ## Data model -/

/-- The enum `AppStatus` (line 60). -/
inductive AppStatus where
  | RUNNING
  | TERMINATED
  deriving DecidableEq, Repr

/-- The enum `MissionStatus` (line 61); `NONE` is the ongoing mission. -/
inductive MissionStatus where
  | NONE
  | FAILED
  | ACCOMPLISHED
  deriving DecidableEq, Repr

/-- A `glm::vec3` with exact components. -/
structure Vec3 where
  x : ℚ
  y : ℚ
  z : ℚ
  deriving DecidableEq, Repr

/-- Squared Euclidean length of a vector; `glm::length v > 1.0f` is decided
exactly as `sqLength v > 1`. -/
def Vec3.sqLength (v : Vec3) : ℚ := v.x * v.x + v.y * v.y + v.z * v.z

/-- The member functions of `Entity` that `main.cpp` calls.  `Entity.h` is not
among the sources, so they are parameters of the model. -/
structure EntityOps (E : Type) where
  /-- The call `player->update(delta_time, platforms, platform_count)`. -/
  update : E → ℚ → (Fin PLATFORM_COUNT → E) → Nat → E
  /-- The call `get_position()`. -/
  get_position : E → Vec3
  /-- The call `a->check_collision(&b)`. -/
  check_collision : E → E → Bool
  /-- The call `set_acceleration(v)`. -/
  set_acceleration : E → Vec3 → E
  /-- The call `get_movement()`. -/
  get_movement : E → Vec3
  /-- The call `normalise_movement()`. -/
  normalise_movement : E → E

/-- The process-wide state of `main.cpp`: `g_game_state` (lines 65-72),
`g_app_status` (75), `g_mission_status` (62), `g_player_fuel` (56),
`g_previous_ticks` (80) and `g_time_accumulator` (81).  The field `steps` is a
ghost counter of the calls of `player->update` made at line 348. -/
structure Globals (E : Type) where
  player : E
  platforms : Fin PLATFORM_COUNT → E
  g_app_status : AppStatus
  g_mission_status : MissionStatus
  g_player_fuel : ℚ
  g_previous_ticks : ℚ
  g_time_accumulator : ℚ
  steps : Nat

/-- The initial values of the globals (lines 56, 62, 75, 80, 81) around the
entities created by `initialise`. -/
def initial_globals {E : Type} (player : E) (platforms : Fin PLATFORM_COUNT → E) :
    Globals E :=
  { player := player
    platforms := platforms
    g_app_status := AppStatus.RUNNING
    g_mission_status := MissionStatus.NONE
    g_player_fuel := INITIAL_FUEL
    g_previous_ticks := 0
    g_time_accumulator := 0
    steps := 0 }

/-- What the input collaborator supplies to one `process_input` call: whether a
polled event asks to quit (`SDL_QUIT`, `SDL_WINDOWEVENT_CLOSE` or the `q` key),
and the keyboard state of the three thrust keys. -/
structure Input where
  quit : Bool
  left : Bool
  right : Bool
  up : Bool
  deriving DecidableEq, Repr

/-! ## `process_input` (lines 258-321) -/

/-- Lines 261 and 291-309 of `process_input`: the local `acceleration` as it is
passed to `set_acceleration` at line 311, paired with `g_player_fuel` as it is
before the clamp of line 314. -/
def thrust (fuel : ℚ) (inp : Input) : Vec3 × ℚ :=
  let acceleration : Vec3 := ⟨0, ACC_OF_GRAVITY * (1 / 10), 0⟩
  if fuel > 0 then
    let horizontal : Vec3 × ℚ :=
      if inp.left then (⟨-1, acceleration.y, acceleration.z⟩, fuel - 1 / 100)
      else if inp.right then (⟨1, acceleration.y, acceleration.z⟩, fuel - 1 / 100)
      else (acceleration, fuel)
    if inp.up then (⟨horizontal.1.x, 1, horizontal.1.z⟩, horizontal.2 - 1 / 100)
    else horizontal
  else (acceleration, fuel)

/-- The function `process_input` (lines 258-321). -/
def process_input {E : Type} (ops : EntityOps E) (inp : Input) (g : Globals E) :
    Globals E :=
  let app := if inp.quit then AppStatus.TERMINATED else g.g_app_status
  let t := thrust g.g_player_fuel inp
  let player := ops.set_acceleration g.player t.1
  let fuel := if t.2 < 0 then 0 else t.2
  let player :=
    if (ops.get_movement player).sqLength > 1 then ops.normalise_movement player
    else player
  { g with player := player, g_app_status := app, g_player_fuel := fuel }

/-! ## `update` (lines 323-373) -/

/-- The playfield test of line 352. -/
def out_of_bounds (p : Vec3) : Prop :=
  p.x < -5 ∨ p.x > 5 ∨ p.y < -15 / 4 ∨ p.y > 15 / 4

instance (p : Vec3) : Decidable (out_of_bounds p) := by
  unfold out_of_bounds; infer_instance

/-- The `for` loop of lines 359-366 over the platform indices still to visit:
the first colliding platform sets `ACCOMPLISHED` and leaves the loop. -/
def scan_platforms {E : Type} (ops : EntityOps E) (player : E)
    (platforms : Fin PLATFORM_COUNT → E) :
    List (Fin PLATFORM_COUNT) → MissionStatus → MissionStatus
  | [], status => status
  | i :: rest, status =>
    if ops.check_collision player (platforms i) then MissionStatus.ACCOMPLISHED
    else scan_platforms ops player platforms rest status

/-- One iteration of the `while` loop up to line 367 (the `if` of line 345 with
its body).  The Boolean is `true` when the iteration leaves the `while` loop
through the `break` of line 355. -/
def loop_body {E : Type} (ops : EntityOps E) (g : Globals E) : Globals E × Bool :=
  if g.g_mission_status = MissionStatus.NONE then
    let player := ops.update g.player FIXED_TIMESTEP g.platforms PLATFORM_COUNT
    let g1 : Globals E := { g with player := player, steps := g.steps + 1 }
    if out_of_bounds (ops.get_position player) then
      ({ g1 with g_mission_status := MissionStatus.FAILED }, true)
    else
      ({ g1 with
          g_mission_status :=
            scan_platforms ops player g1.platforms (List.finRange PLATFORM_COUNT)
              g1.g_mission_status }, false)
  else (g, false)

/-- The `while` loop of lines 343-370 on the globals and the local `delta_time`. -/
def while_loop {E : Type} (ops : EntityOps E) (g : Globals E) (delta_time : ℚ) :
    Globals E × ℚ :=
  if FIXED_TIMESTEP ≤ delta_time then
    let r := loop_body ops g
    if r.2 then (r.1, delta_time)
    else while_loop ops r.1 (delta_time - FIXED_TIMESTEP)
  else (g, delta_time)
termination_by ⌊delta_time / FIXED_TIMESTEP⌋₊
decreasing_by
  have hpos : (0 : ℚ) < FIXED_TIMESTEP := by norm_num [FIXED_TIMESTEP]
  have h1 : (delta_time - FIXED_TIMESTEP) / FIXED_TIMESTEP
      = delta_time / FIXED_TIMESTEP - 1 := by field_simp
  have h2 : (1 : ℚ) ≤ delta_time / FIXED_TIMESTEP := by
    rw [le_div_iff₀ hpos]; linarith
  have h3 : 1 ≤ ⌊delta_time / FIXED_TIMESTEP⌋₊ := Nat.le_floor (by simpa using h2)
  rw [h1, Nat.floor_sub_one]
  omega

/-- The function `update` (lines 323-373); `ticks` is the value of
`(float)SDL_GetTicks() / MILLISECONDS_IN_SECOND` at line 326. -/
def update {E : Type} (ops : EntityOps E) (ticks : ℚ) (g : Globals E) : Globals E :=
  let delta_time := ticks - g.g_previous_ticks
  let g := { g with g_previous_ticks := ticks }
  let delta_time := delta_time + g.g_time_accumulator
  if delta_time < FIXED_TIMESTEP then
    { g with g_time_accumulator := delta_time }
  else
    let r := while_loop ops g delta_time
    { r.1 with g_time_accumulator := r.2 }

/-! ## `render` and the main loop (lines 375-430) -/

/-- The function `render` (lines 375-403): it draws from the globals and writes
none of them. -/
def render {E : Type} (g : Globals E) : Globals E := g

/-- One iteration of the loop of `main` (lines 421-429); `ticks` is the clock
sample that `update` reads when it is called. -/
def frame {E : Type} (ops : EntityOps E) (inp : Input) (ticks : ℚ) (g : Globals E) :
    Globals E :=
  let g := process_input ops inp g
  let g := if g.g_mission_status = MissionStatus.NONE then update ops ticks g else g
  render g

/-- The loop of `main` (lines 419-430) over the inputs and clock samples of the
successive frames; it stops when `g_app_status` is no longer `RUNNING`. -/
def main_loop {E : Type} (ops : EntityOps E) : List (Input × ℚ) → Globals E → Globals E
  | [], g => g
  | f :: rest, g =>
    if g.g_app_status = AppStatus.RUNNING then main_loop ops rest (frame ops f.1 f.2 g)
    else g

/-- Modelled from the spec: the class `Entity` of `Entity.h`, which is not among
the sources.  The kinematic state of spec §3: position, velocity, acceleration,
movement-intent vector and the scale that gives the bounding box. -/
structure Entity where
  m_position : Vec3
  m_velocity : Vec3
  m_acceleration : Vec3
  m_movement : Vec3
  m_width : ℚ
  m_height : ℚ
  deriving DecidableEq, Repr

/-- Modelled from the spec: the missing `Entity::update`, the integration step
of spec §4.1, `velocity += acceleration * dt` and then `position += velocity * dt`,
with no position correction on contact (spec §4.2). -/
def Entity.update (e : Entity) (delta_time : ℚ) (_platforms : Fin PLATFORM_COUNT → Entity)
    (_platform_count : Nat) : Entity :=
  let v : Vec3 :=
    ⟨e.m_velocity.x + e.m_acceleration.x * delta_time,
     e.m_velocity.y + e.m_acceleration.y * delta_time,
     e.m_velocity.z + e.m_acceleration.z * delta_time⟩
  { e with
    m_velocity := v
    m_position :=
      ⟨e.m_position.x + v.x * delta_time, e.m_position.y + v.y * delta_time,
       e.m_position.z + v.z * delta_time⟩ }

/-- Modelled from the spec: the missing `Entity::check_collision`, the overlap
test of spec §4.2: on both axes the distance between the centres is less than
the sum of the half-extents. -/
def Entity.check_collision (a b : Entity) : Bool :=
  decide (|a.m_position.x - b.m_position.x| < (a.m_width + b.m_width) / 2 ∧
    |a.m_position.y - b.m_position.y| < (a.m_height + b.m_height) / 2)

/-- Modelled from the spec: the missing accessors of `Entity` and
`normalise_movement`.  A unit vector is irrational in general; this entity
leaves a movement vector as it is, and `main.cpp` never writes one. -/
def entity_ops : EntityOps Entity :=
  { update := Entity.update
    get_position := fun e => e.m_position
    check_collision := Entity.check_collision
    set_acceleration := fun e a => { e with m_acceleration := a }
    get_movement := fun e => e.m_movement
    normalise_movement := fun e => e }

/-- An entity of unit scale at rest at `(x, y)`. -/
def entity_at (x y : ℚ) : Entity :=
  { m_position := ⟨x, y, 0⟩
    m_velocity := ⟨0, 0, 0⟩
    m_acceleration := ⟨0, 0, 0⟩
    m_movement := ⟨0, 0, 0⟩
    m_width := 1
    m_height := 1 }

/-- The four platforms as `initialise` places them (lines 235-247). -/
def start_platforms : Fin PLATFORM_COUNT → Entity :=
  fun i =>
    if i.val = 0 then entity_at (-4) (-3)
    else if i.val = 1 then entity_at (-2) (-5 / 2)
    else if i.val = 2 then entity_at 2 (-2)
    else entity_at 4 (-3)

/-- The player as `initialise` creates it (lines 225-229): at the origin under
gravity. -/
def start_player : Entity :=
  { entity_at 0 0 with m_acceleration := ⟨0, ACC_OF_GRAVITY * (1 / 10), 0⟩ }

/-- The globals after `initialise`. -/
def start_globals : Globals Entity := initial_globals start_player start_platforms

/-- The globals with the player at rest at `(x, y)` and moving with velocity
`(vx, 0)`, the mission status being `status`. -/
def globals_at (x y vx : ℚ) (status : MissionStatus) : Globals Entity :=
  { initial_globals { entity_at x y with m_velocity := ⟨vx, 0, 0⟩ } start_platforms with
    g_mission_status := status }

/-! ## The `while` loop: unfolding and induction -/

theorem FIXED_TIMESTEP_pos : (0 : ℚ) < FIXED_TIMESTEP := by
  norm_num [FIXED_TIMESTEP]

theorem while_loop_unfold {E : Type} (ops : EntityOps E) (g : Globals E) (d : ℚ) :
    while_loop ops g d =
      if FIXED_TIMESTEP ≤ d then
        (if (loop_body ops g).2 then ((loop_body ops g).1, d)
         else while_loop ops (loop_body ops g).1 (d - FIXED_TIMESTEP))
      else (g, d) := by
  rw [while_loop]

theorem while_loop_induction {E : Type} (ops : EntityOps E) (P : Globals E → ℚ → Prop)
    (hbase : ∀ g d, ¬ FIXED_TIMESTEP ≤ d → P g d)
    (hstep : ∀ g d, FIXED_TIMESTEP ≤ d →
      ((loop_body ops g).2 = false → P (loop_body ops g).1 (d - FIXED_TIMESTEP)) → P g d) :
    ∀ g d, P g d := by
  intro g d
  generalize hn : ⌊d / FIXED_TIMESTEP⌋₊ = n
  induction n using Nat.strong_induction_on generalizing g d with
  | _ n ih =>
    subst hn
    by_cases h : FIXED_TIMESTEP ≤ d
    · apply hstep g d h
      intro _
      have hpos := FIXED_TIMESTEP_pos
      have h1 : (d - FIXED_TIMESTEP) / FIXED_TIMESTEP = d / FIXED_TIMESTEP - 1 := by
        field_simp
      have h2 : (1 : ℚ) ≤ d / FIXED_TIMESTEP := by
        rw [le_div_iff₀ hpos]; linarith
      have h3 : 1 ≤ ⌊d / FIXED_TIMESTEP⌋₊ := Nat.le_floor (by simpa using h2)
      refine ih ⌊(d - FIXED_TIMESTEP) / FIXED_TIMESTEP⌋₊ ?_ _ _ rfl
      rw [h1, Nat.floor_sub_one]
      omega
    · exact hbase g d h

/-! ## Facts about one loop iteration -/

theorem scan_platforms_cases {E : Type} (ops : EntityOps E) (player : E)
    (platforms : Fin PLATFORM_COUNT → E) (l : List (Fin PLATFORM_COUNT))
    (status : MissionStatus) :
    (scan_platforms ops player platforms l status = MissionStatus.ACCOMPLISHED ∧
        ∃ i ∈ l, ops.check_collision player (platforms i) = true) ∨
      (scan_platforms ops player platforms l status = status ∧
        ∀ i ∈ l, ops.check_collision player (platforms i) = false) := by
  induction l with
  | nil => right; simp [scan_platforms]
  | cons i rest ih =>
    by_cases hc : ops.check_collision player (platforms i) = true
    · left
      exact ⟨by simp [scan_platforms, hc], i, by simp, hc⟩
    · rcases ih with ⟨h1, j, hj, hcj⟩ | ⟨h1, h2⟩
      · left
        exact ⟨by simp [scan_platforms, hc, h1], j, by simp [hj], hcj⟩
      · right
        refine ⟨by simp [scan_platforms, hc, h1], ?_⟩
        intro j hj
        rcases List.mem_cons.mp hj with rfl | hj
        · simpa using hc
        · exact h2 j hj

theorem loop_body_terminal {E : Type} (ops : EntityOps E) (g : Globals E)
    (h : g.g_mission_status ≠ MissionStatus.NONE) : loop_body ops g = (g, false) := by
  simp [loop_body, h]

/-- What one iteration does when the mission is ongoing: the player is updated
once, and either the iteration breaks with `FAILED`, or it goes on with `NONE`
or `ACCOMPLISHED`. -/
theorem loop_body_ongoing {E : Type} (ops : EntityOps E) (g : Globals E)
    (h : g.g_mission_status = MissionStatus.NONE) :
    (loop_body ops g).1.steps = g.steps + 1 ∧
    (((loop_body ops g).2 = true ∧
        (loop_body ops g).1.g_mission_status = MissionStatus.FAILED) ∨
      ((loop_body ops g).2 = false ∧
        ((loop_body ops g).1.g_mission_status = MissionStatus.NONE ∨
          (loop_body ops g).1.g_mission_status = MissionStatus.ACCOMPLISHED))) := by
  unfold loop_body
  simp only [h, if_true]
  split
  · exact ⟨rfl, Or.inl ⟨rfl, rfl⟩⟩
  · refine ⟨rfl, Or.inr ⟨rfl, ?_⟩⟩
    rcases scan_platforms_cases ops
        (ops.update g.player FIXED_TIMESTEP g.platforms PLATFORM_COUNT) g.platforms
        (List.finRange PLATFORM_COUNT) MissionStatus.NONE with ⟨h1, _⟩ | ⟨h1, _⟩
    · right; simpa using h1
    · left; simpa using h1

theorem loop_body_frame {E : Type} (ops : EntityOps E) (g : Globals E) :
    (loop_body ops g).1.g_player_fuel = g.g_player_fuel ∧
    (loop_body ops g).1.g_app_status = g.g_app_status ∧
    (loop_body ops g).1.g_previous_ticks = g.g_previous_ticks ∧
    (loop_body ops g).1.platforms = g.platforms := by
  unfold loop_body
  split
  · simp only []
    split <;> exact ⟨rfl, rfl, rfl, rfl⟩
  · exact ⟨rfl, rfl, rfl, rfl⟩

/-! ## Facts about the whole `while` loop -/

theorem while_loop_terminal {E : Type} (ops : EntityOps E) :
    ∀ (g : Globals E) (d : ℚ), g.g_mission_status ≠ MissionStatus.NONE →
      (while_loop ops g d).1 = g ∧ ((while_loop ops g d).2 < FIXED_TIMESTEP) ∧
        ∃ n : ℕ, (while_loop ops g d).2 = d - n * FIXED_TIMESTEP := by
  apply while_loop_induction ops
  · intro g d hd _
    rw [while_loop_unfold, if_neg hd]
    exact ⟨rfl, lt_of_not_le hd, 0, by simp⟩
  · intro g d hd ih hg
    rw [while_loop_unfold, if_pos hd, loop_body_terminal ops g hg]
    rw [loop_body_terminal ops g hg] at ih
    obtain ⟨h1, h2, n, h3⟩ := ih rfl hg
    simp only [Bool.false_eq_true, if_false]
    refine ⟨h1, h2, n + 1, ?_⟩
    rw [h3]; push_cast; ring

theorem while_loop_frame {E : Type} (ops : EntityOps E) :
    ∀ (g : Globals E) (d : ℚ),
      (while_loop ops g d).1.g_player_fuel = g.g_player_fuel ∧
      (while_loop ops g d).1.g_app_status = g.g_app_status ∧
      (while_loop ops g d).1.g_previous_ticks = g.g_previous_ticks ∧
      (while_loop ops g d).1.platforms = g.platforms := by
  apply while_loop_induction ops
  · intro g d hd
    rw [while_loop_unfold, if_neg hd]
    exact ⟨rfl, rfl, rfl, rfl⟩
  · intro g d hd ih
    rw [while_loop_unfold, if_pos hd]
    obtain ⟨b1, b2, b3, b4⟩ := loop_body_frame ops g
    cases hb : (loop_body ops g).2
    · obtain ⟨h1, h2, h3, h4⟩ := ih hb
      simp only [Bool.false_eq_true, if_false]
      exact ⟨h1.trans b1, h2.trans b2, h3.trans b3, h4.trans b4⟩
    · simp only [if_true]
      exact ⟨b1, b2, b3, b4⟩

theorem while_loop_nonneg {E : Type} (ops : EntityOps E) :
    ∀ (g : Globals E) (d : ℚ), 0 ≤ d → 0 ≤ (while_loop ops g d).2 := by
  apply while_loop_induction ops
  · intro g d hd h0
    rw [while_loop_unfold, if_neg hd]
    exact h0
  · intro g d hd ih h0
    rw [while_loop_unfold, if_pos hd]
    cases hb : (loop_body ops g).2
    · simp only [Bool.false_eq_true, if_false]
      exact ih hb (by linarith)
    · simp only [if_true]
      exact h0

/-- The `while` loop started with an ongoing mission: `m` player updates ran
and `n` timesteps were subtracted, related according to the status at the exit. -/
theorem while_loop_count {E : Type} (ops : EntityOps E) :
    ∀ (g : Globals E) (d : ℚ), g.g_mission_status = MissionStatus.NONE →
      ∃ m n : ℕ, (while_loop ops g d).1.steps = g.steps + m ∧
        (while_loop ops g d).2 = d - n * FIXED_TIMESTEP ∧
        ((while_loop ops g d).1.g_mission_status = MissionStatus.NONE →
          m = n ∧ (while_loop ops g d).2 < FIXED_TIMESTEP) ∧
        ((while_loop ops g d).1.g_mission_status = MissionStatus.FAILED →
          m = n + 1 ∧ FIXED_TIMESTEP ≤ (while_loop ops g d).2) ∧
        ((while_loop ops g d).1.g_mission_status = MissionStatus.ACCOMPLISHED →
          1 ≤ m ∧ m ≤ n ∧ (while_loop ops g d).2 < FIXED_TIMESTEP) := by
  apply while_loop_induction ops
  · intro g d hd hg
    rw [while_loop_unfold, if_neg hd]
    refine ⟨0, 0, by simp, by simp, ?_, ?_, ?_⟩
    · intro _; exact ⟨rfl, lt_of_not_le hd⟩
    · intro h; simp [hg] at h
    · intro h; simp [hg] at h
  · intro g d hd ih hg
    rw [while_loop_unfold, if_pos hd]
    obtain ⟨hs, hcase⟩ := loop_body_ongoing ops g hg
    rcases hcase with ⟨hb, hf⟩ | ⟨hb, hn | ha⟩
    · simp only [hb, if_true]
      refine ⟨1, 0, hs, by simp, ?_, ?_, ?_⟩
      · intro h; simp [hf] at h
      · intro _; exact ⟨rfl, hd⟩
      · intro h; simp [hf] at h
    · simp only [hb, Bool.false_eq_true, if_false]
      obtain ⟨m, n, h1, h2, h3, h4, h5⟩ := ih hb hn
      refine ⟨m + 1, n + 1, by rw [h1, hs]; ring, by rw [h2]; push_cast; ring, ?_, ?_, ?_⟩
      · intro h; obtain ⟨e, l⟩ := h3 h; exact ⟨by omega, l⟩
      · intro h; obtain ⟨e, l⟩ := h4 h; exact ⟨by omega, l⟩
      · intro h; obtain ⟨e1, e2, l⟩ := h5 h; exact ⟨by omega, by omega, l⟩
    · simp only [hb, Bool.false_eq_true, if_false]
      have hne : (loop_body ops g).1.g_mission_status ≠ MissionStatus.NONE := by
        rw [ha]; decide
      obtain ⟨t1, t2, n, t3⟩ :=
        while_loop_terminal ops (loop_body ops g).1 (d - FIXED_TIMESTEP) hne
      refine ⟨1, n + 1, by rw [t1, hs], by rw [t3]; push_cast; ring, ?_, ?_, ?_⟩
      · intro h; rw [t1, ha] at h; exact absurd h (by decide)
      · intro h; rw [t1, ha] at h; exact absurd h (by decide)
      · intro _; exact ⟨le_refl 1, by omega, t2⟩

/-! ## Facts about `update` -/

theorem update_terminal {E : Type} (ops : EntityOps E) (ticks : ℚ) (g : Globals E)
    (h : g.g_mission_status ≠ MissionStatus.NONE) :
    (update ops ticks g).g_mission_status = g.g_mission_status ∧
      (update ops ticks g).steps = g.steps ∧ (update ops ticks g).player = g.player := by
  unfold update
  simp only []
  split
  · exact ⟨rfl, rfl, rfl⟩
  · have ht := (while_loop_terminal ops { g with g_previous_ticks := ticks }
      (ticks - g.g_previous_ticks + g.g_time_accumulator) h).1
    simp only [ht]
    exact ⟨trivial, trivial, trivial⟩

theorem update_terminal_lt {E : Type} (ops : EntityOps E) (ticks : ℚ) (g : Globals E)
    (h : g.g_mission_status ≠ MissionStatus.NONE) :
    (update ops ticks g).g_time_accumulator < FIXED_TIMESTEP := by
  unfold update
  simp only []
  split
  · assumption
  · exact (while_loop_terminal ops { g with g_previous_ticks := ticks }
      (ticks - g.g_previous_ticks + g.g_time_accumulator) h).2.1

theorem update_frame {E : Type} (ops : EntityOps E) (ticks : ℚ) (g : Globals E) :
    (update ops ticks g).g_player_fuel = g.g_player_fuel ∧
      (update ops ticks g).g_app_status = g.g_app_status ∧
      (update ops ticks g).g_previous_ticks = ticks := by
  unfold update
  simp only []
  split
  · exact ⟨rfl, rfl, rfl⟩
  · obtain ⟨h1, h2, h3, _⟩ := while_loop_frame ops { g with g_previous_ticks := ticks }
      (ticks - g.g_previous_ticks + g.g_time_accumulator)
    exact ⟨h1, h2, h3⟩

theorem update_nonneg {E : Type} (ops : EntityOps E) (ticks : ℚ) (g : Globals E)
    (hacc : 0 ≤ g.g_time_accumulator) (hdt : 0 ≤ ticks - g.g_previous_ticks) :
    0 ≤ (update ops ticks g).g_time_accumulator := by
  unfold update
  simp only []
  split
  · show 0 ≤ ticks - g.g_previous_ticks + g.g_time_accumulator
    linarith
  · exact while_loop_nonneg ops _ _ (by linarith)

/-- One call of `update` with an ongoing mission: `m` player updates ran and
`n` timesteps were taken out of the stored time, related according to the
status at the return. -/
theorem update_count {E : Type} (ops : EntityOps E) (ticks : ℚ) (g : Globals E)
    (hg : g.g_mission_status = MissionStatus.NONE) :
    ∃ m n : ℕ, (update ops ticks g).steps = g.steps + m ∧
      (update ops ticks g).g_time_accumulator
        = ticks - g.g_previous_ticks + g.g_time_accumulator - n * FIXED_TIMESTEP ∧
      ((update ops ticks g).g_mission_status = MissionStatus.NONE →
        m = n ∧ (update ops ticks g).g_time_accumulator < FIXED_TIMESTEP) ∧
      ((update ops ticks g).g_mission_status = MissionStatus.FAILED →
        m = n + 1 ∧ FIXED_TIMESTEP ≤ (update ops ticks g).g_time_accumulator) ∧
      ((update ops ticks g).g_mission_status = MissionStatus.ACCOMPLISHED →
        1 ≤ m ∧ m ≤ n ∧ (update ops ticks g).g_time_accumulator < FIXED_TIMESTEP) := by
  unfold update
  simp only []
  split
  · rename_i hlt
    refine ⟨0, 0, by simp, by simp, ?_, ?_, ?_⟩
    · intro _; exact ⟨rfl, hlt⟩
    · intro h; simp [hg] at h
    · intro h; simp [hg] at h
  · exact while_loop_count ops { g with g_previous_ticks := ticks }
      (ticks - g.g_previous_ticks + g.g_time_accumulator) hg

/-! ## Facts about frames -/

theorem process_input_status {E : Type} (ops : EntityOps E) (inp : Input) (g : Globals E) :
    (process_input ops inp g).g_mission_status = g.g_mission_status := rfl

theorem frame_terminal {E : Type} (ops : EntityOps E) (inp : Input) (ticks : ℚ)
    (g : Globals E) (h : g.g_mission_status ≠ MissionStatus.NONE) :
    (frame ops inp ticks g).g_mission_status = g.g_mission_status := by
  unfold frame render
  simp only [process_input_status]
  rw [if_neg h, process_input_status]

theorem main_loop_terminal {E : Type} (ops : EntityOps E) (frames : List (Input × ℚ)) :
    ∀ g : Globals E, g.g_mission_status ≠ MissionStatus.NONE →
      (main_loop ops frames g).g_mission_status = g.g_mission_status := by
  induction frames with
  | nil => intro g _; rfl
  | cons f rest ih =>
    intro g h
    unfold main_loop
    split
    · have hf := frame_terminal ops f.1 f.2 g h
      rw [ih _ (by rw [hf]; exact h), hf]
    · rfl

theorem process_input_fuel {E : Type} (ops : EntityOps E) (inp : Input) (g : Globals E) :
    (process_input ops inp g).g_player_fuel
      = if (thrust g.g_player_fuel inp).2 < 0 then 0 else (thrust g.g_player_fuel inp).2 :=
  rfl

theorem process_input_player {E : Type} (ops : EntityOps E) (inp : Input) (g : Globals E) :
    (process_input ops inp g).player
      = if (ops.get_movement (ops.set_acceleration g.player
            (thrust g.g_player_fuel inp).1)).sqLength > 1
        then ops.normalise_movement (ops.set_acceleration g.player
            (thrust g.g_player_fuel inp).1)
        else ops.set_acceleration g.player (thrust g.g_player_fuel inp).1 :=
  rfl

theorem thrust_fuel_le (fuel : ℚ) (inp : Input) : (thrust fuel inp).2 ≤ fuel := by
  unfold thrust
  simp only []
  split_ifs <;> simp only [] <;> linarith

theorem thrust_no_input (fuel : ℚ) (inp : Input) (hl : inp.left = false)
    (hr : inp.right = false) (hu : inp.up = false) : (thrust fuel inp).2 = fuel := by
  unfold thrust
  simp [hl, hr, hu]

theorem process_input_fuel_bounds {E : Type} (ops : EntityOps E) (inp : Input)
    (g : Globals E) (h0 : 0 ≤ g.g_player_fuel) :
    0 ≤ (process_input ops inp g).g_player_fuel ∧
      (process_input ops inp g).g_player_fuel ≤ g.g_player_fuel := by
  rw [process_input_fuel]
  have hle := thrust_fuel_le g.g_player_fuel inp
  split_ifs with h
  · exact ⟨le_refl 0, h0⟩
  · exact ⟨not_lt.mp h, hle⟩

theorem frame_fuel {E : Type} (ops : EntityOps E) (inp : Input) (ticks : ℚ)
    (g : Globals E) :
    (frame ops inp ticks g).g_player_fuel = (process_input ops inp g).g_player_fuel := by
  unfold frame render
  simp only []
  split
  · exact (update_frame ops ticks _).1
  · rfl

theorem main_loop_fuel_bounds {E : Type} (ops : EntityOps E) (frames : List (Input × ℚ)) :
    ∀ g : Globals E, 0 ≤ g.g_player_fuel →
      0 ≤ (main_loop ops frames g).g_player_fuel ∧
        (main_loop ops frames g).g_player_fuel ≤ g.g_player_fuel := by
  induction frames with
  | nil => intro g h0; exact ⟨h0, le_refl _⟩
  | cons f rest ih =>
    intro g h0
    unfold main_loop
    split
    · obtain ⟨p0, p1⟩ := process_input_fuel_bounds ops f.1 g h0
      have hf := frame_fuel ops f.1 f.2 g
      obtain ⟨q0, q1⟩ := ih (frame ops f.1 f.2 g) (by rw [hf]; exact p0)
      exact ⟨q0, by linarith⟩
    · exact ⟨h0, le_refl _⟩

theorem main_loop_append {E : Type} (ops : EntityOps E) (frames more : List (Input × ℚ)) :
    ∀ g : Globals E,
      main_loop ops (frames ++ more) g = main_loop ops more (main_loop ops frames g) := by
  induction frames with
  | nil => intro g; rfl
  | cons f rest ih =>
    intro g
    by_cases h : g.g_app_status = AppStatus.RUNNING
    · simp only [List.cons_append, main_loop, h, if_true]
      exact ih _
    · simp only [List.cons_append, main_loop, h, if_false]
      cases more with
      | nil => rfl
      | cons f2 more2 => simp only [main_loop, h, if_false]

/-! ## Evaluation lemmas for concrete runs -/

theorem while_loop_stop {E : Type} (ops : EntityOps E) (g : Globals E) (d : ℚ)
    (h : d < FIXED_TIMESTEP) : while_loop ops g d = (g, d) := by
  rw [while_loop_unfold, if_neg (not_le.mpr h)]

theorem while_loop_next {E : Type} (ops : EntityOps E) (g : Globals E) (d : ℚ)
    (h : FIXED_TIMESTEP ≤ d) (hb : (loop_body ops g).2 = false) :
    while_loop ops g d = while_loop ops (loop_body ops g).1 (d - FIXED_TIMESTEP) := by
  rw [while_loop_unfold, if_pos h, hb]
  rfl

theorem while_loop_break {E : Type} (ops : EntityOps E) (g : Globals E) (d : ℚ)
    (h : FIXED_TIMESTEP ≤ d) (hb : (loop_body ops g).2 = true) :
    while_loop ops g d = ((loop_body ops g).1, d) := by
  rw [while_loop_unfold, if_pos h, hb]
  rfl

theorem update_run {E : Type} (ops : EntityOps E) (ticks : ℚ) (g : Globals E)
    (h : FIXED_TIMESTEP ≤ ticks - g.g_previous_ticks + g.g_time_accumulator) :
    update ops ticks g =
      { (while_loop ops { g with g_previous_ticks := ticks }
          (ticks - g.g_previous_ticks + g.g_time_accumulator)).1 with
        g_time_accumulator := (while_loop ops { g with g_previous_ticks := ticks }
          (ticks - g.g_previous_ticks + g.g_time_accumulator)).2 } := by
  unfold update
  simp only []
  rw [if_neg (not_lt.mpr h)]

theorem finRange_platform_count : List.finRange PLATFORM_COUNT = [0, 1, 2, 3] := by
  rfl

/-- A player that crosses the right border: the step fails and breaks. -/
theorem loop_body_crossing :
    loop_body entity_ops { globals_at 5 0 1 MissionStatus.NONE with g_previous_ticks := 1 / 20 }
      = ({ globals_at (5 + 1 / 60) 0 1 MissionStatus.FAILED with
            g_previous_ticks := 1 / 20, steps := 1 }, true) := by
  simp [loop_body, globals_at, initial_globals, entity_ops, Entity.update, entity_at,
    out_of_bounds, FIXED_TIMESTEP]

/-- A player that rests on the third platform: the step accomplishes the
mission and does not break. -/
theorem loop_body_landed :
    loop_body entity_ops
        { globals_at 2 (-2) 0 MissionStatus.NONE with g_previous_ticks := 1 / 20 }
      = ({ globals_at 2 (-2) 0 MissionStatus.ACCOMPLISHED with
            g_previous_ticks := 1 / 20, steps := 1 }, false) := by
  simp [loop_body, globals_at, initial_globals, entity_ops, Entity.update, entity_at,
    out_of_bounds, FIXED_TIMESTEP, finRange_platform_count, scan_platforms,
    Entity.check_collision, start_platforms]
  norm_num

theorem update_crossing :
    update entity_ops (1 / 20) (globals_at 5 0 1 MissionStatus.NONE)
      = { globals_at (5 + 1 / 60) 0 1 MissionStatus.FAILED with
          g_previous_ticks := 1 / 20, steps := 1, g_time_accumulator := 1 / 20 } := by
  rw [update_run _ _ _ (by norm_num [globals_at, initial_globals, FIXED_TIMESTEP])]
  rw [while_loop_break _ _ _ (by norm_num [globals_at, initial_globals, FIXED_TIMESTEP])
    (by rw [loop_body_crossing])]
  rw [loop_body_crossing]
  simp [globals_at, initial_globals]

theorem while_loop_skip {E : Type} (ops : EntityOps E) (g : Globals E) (d : ℚ)
    (hg : g.g_mission_status ≠ MissionStatus.NONE) (h : FIXED_TIMESTEP ≤ d) :
    while_loop ops g d = while_loop ops g (d - FIXED_TIMESTEP) := by
  rw [while_loop_next ops g d h (by rw [loop_body_terminal ops g hg]),
    loop_body_terminal ops g hg]

theorem update_landed :
    update entity_ops (1 / 20) (globals_at 2 (-2) 0 MissionStatus.NONE)
      = { globals_at 2 (-2) 0 MissionStatus.ACCOMPLISHED with
          g_previous_ticks := 1 / 20, steps := 1, g_time_accumulator := 0 } := by
  rw [update_run _ _ _ (by norm_num [globals_at, initial_globals, FIXED_TIMESTEP])]
  rw [while_loop_next _ _ _ (by norm_num [globals_at, initial_globals, FIXED_TIMESTEP])
    (by rw [loop_body_landed])]
  rw [loop_body_landed]
  rw [while_loop_skip _ _ _ (by simp [globals_at])
    (by norm_num [globals_at, initial_globals, FIXED_TIMESTEP])]
  rw [while_loop_skip _ _ _ (by simp [globals_at])
    (by norm_num [globals_at, initial_globals, FIXED_TIMESTEP])]
  rw [while_loop_stop _ _ _ (by norm_num [globals_at, initial_globals, FIXED_TIMESTEP])]
  simp [globals_at, initial_globals]
  norm_num [FIXED_TIMESTEP]

/-- C2. Mission status is terminal: from a state whose status is `FAILED` or
`ACCOMPLISHED`, every sequence of frames of the main loop, every single call of
`update` and every run of the `while` loop inside it (whatever time is left)
end with the same status. -/
theorem mission_status_terminal {E : Type} (ops : EntityOps E) (g : Globals E)
    (frames : List (Input × ℚ)) (ticks delta_time : ℚ)
    (h : g.g_mission_status = MissionStatus.FAILED ∨
      g.g_mission_status = MissionStatus.ACCOMPLISHED) :
    (main_loop ops frames g).g_mission_status = g.g_mission_status ∧
      (update ops ticks g).g_mission_status = g.g_mission_status ∧
      (while_loop ops g delta_time).1.g_mission_status = g.g_mission_status := by
  have hne : g.g_mission_status ≠ MissionStatus.NONE := by
    rcases h with h | h <;> rw [h] <;> decide
  refine ⟨main_loop_terminal ops frames g hne, (update_terminal ops ticks g hne).1, ?_⟩
  rw [(while_loop_terminal ops g delta_time hne).1]

/-- C3. Outcome of one simulation step taken while the mission is ongoing, with
`(x, y)` the position of the player after its update: `FAILED` if
`x < -5`, `x > 5`, `y < -3.75` or `y > 3.75`, whether or not a platform is
touched; otherwise (the boundary values included) `ACCOMPLISHED` if some
platform collides with the player, and `NONE` if none does. -/
theorem simulation_step_outcome {E : Type} (ops : EntityOps E) (g : Globals E)
    (h : g.g_mission_status = MissionStatus.NONE) :
    (loop_body ops g).1.player
        = ops.update g.player FIXED_TIMESTEP g.platforms PLATFORM_COUNT ∧
      (((ops.get_position (loop_body ops g).1.player).x < -5 ∨
          (ops.get_position (loop_body ops g).1.player).x > 5 ∨
          (ops.get_position (loop_body ops g).1.player).y < -375 / 100 ∨
          (ops.get_position (loop_body ops g).1.player).y > 375 / 100) →
        (loop_body ops g).1.g_mission_status = MissionStatus.FAILED) ∧
      ((-5 ≤ (ops.get_position (loop_body ops g).1.player).x ∧
          (ops.get_position (loop_body ops g).1.player).x ≤ 5 ∧
          -375 / 100 ≤ (ops.get_position (loop_body ops g).1.player).y ∧
          (ops.get_position (loop_body ops g).1.player).y ≤ 375 / 100) →
        ((∃ i : Fin PLATFORM_COUNT,
            ops.check_collision (loop_body ops g).1.player (g.platforms i) = true) →
          (loop_body ops g).1.g_mission_status = MissionStatus.ACCOMPLISHED) ∧
        ((∀ i : Fin PLATFORM_COUNT,
            ops.check_collision (loop_body ops g).1.player (g.platforms i) = false) →
          (loop_body ops g).1.g_mission_status = MissionStatus.NONE)) := by
  unfold loop_body
  simp only [h, if_true]
  by_cases hoob :
      out_of_bounds (ops.get_position
        (ops.update g.player FIXED_TIMESTEP g.platforms PLATFORM_COUNT))
  · simp only [hoob, if_true]
    refine ⟨trivial, fun _ => trivial, ?_⟩
    rintro ⟨h1, h2, h3, h4⟩
    exfalso
    unfold out_of_bounds at hoob
    rcases hoob with hb | hb | hb | hb
    · linarith
    · linarith
    · norm_num at h3 hb; linarith
    · norm_num at h4 hb; linarith
  · simp only [hoob, if_false]
    refine ⟨trivial, ?_, ?_⟩
    · intro hb
      exfalso
      apply hoob
      unfold out_of_bounds
      rcases hb with hb | hb | hb | hb
      · exact Or.inl hb
      · exact Or.inr (Or.inl hb)
      · exact Or.inr (Or.inr (Or.inl (by norm_num at hb ⊢; linarith)))
      · exact Or.inr (Or.inr (Or.inr (by norm_num at hb ⊢; linarith)))
    · intro _
      rcases scan_platforms_cases ops
          (ops.update g.player FIXED_TIMESTEP g.platforms PLATFORM_COUNT) g.platforms
          (List.finRange PLATFORM_COUNT) MissionStatus.NONE with ⟨h1, i, _, hi⟩ | ⟨h1, h2⟩
      · refine ⟨fun _ => h1, ?_⟩
        intro hall
        rw [hall i] at hi
        exact absurd hi (by decide)
      · refine ⟨?_, fun _ => h1⟩
        rintro ⟨i, hi⟩
        rw [h2 i (List.mem_finRange i)] at hi
        exact absurd hi (by decide)

/-- C4, as the code has it. With fuel left and both the left and the right
input held (up not held), the left input wins: the acceleration passed to
`set_acceleration` has horizontal component -1, and the fuel goes down by the
cost of one input, 0.01, clamped at 0. -/
theorem left_right_left_wins {E : Type} (ops : EntityOps E) (inp : Input) (g : Globals E)
    (hf : 0 < g.g_player_fuel) (hl : inp.left = true) (hr : inp.right = true)
    (hu : inp.up = false) :
    (thrust g.g_player_fuel inp).1 = ⟨-1, ACC_OF_GRAVITY * (1 / 10), 0⟩ ∧
      (process_input ops inp g).g_player_fuel = max 0 (g.g_player_fuel - 1 / 100) := by
  obtain ⟨quit, left, right, up⟩ := inp
  simp only at hl hr hu
  subst hl hr hu
  have ht : thrust g.g_player_fuel ⟨quit, true, true, false⟩
      = (⟨-1, ACC_OF_GRAVITY * (1 / 10), 0⟩, g.g_player_fuel - 1 / 100) := by
    unfold thrust
    simp [hf]
  rw [process_input_fuel, ht]
  refine ⟨rfl, ?_⟩
  simp only []
  split_ifs with hneg
  · exact (max_eq_left hneg.le).symm
  · exact (max_eq_right (not_lt.mp hneg)).symm

/-- C5. Exhausted fuel: with the fuel level exactly 0 and the left input held,
whatever the other inputs, the acceleration passed to `set_acceleration` is the
gravity-only vector `(0, ACC_OF_GRAVITY * 0.1, 0)`, the player is set with it,
and the fuel level stays exactly 0. -/
theorem exhausted_fuel_gravity_only {E : Type} (ops : EntityOps E) (inp : Input)
    (g : Globals E) (hf : g.g_player_fuel = 0) (hl : inp.left = true) :
    (thrust g.g_player_fuel inp).1 = ⟨0, ACC_OF_GRAVITY * (1 / 10), 0⟩ ∧
      (thrust g.g_player_fuel inp).1.x = 0 ∧
      (process_input ops inp g).player
        = (if (ops.get_movement (ops.set_acceleration g.player
              ⟨0, ACC_OF_GRAVITY * (1 / 10), 0⟩)).sqLength > 1
          then ops.normalise_movement (ops.set_acceleration g.player
              ⟨0, ACC_OF_GRAVITY * (1 / 10), 0⟩)
          else ops.set_acceleration g.player ⟨0, ACC_OF_GRAVITY * (1 / 10), 0⟩) ∧
      (process_input ops inp g).g_player_fuel = 0 := by
  obtain ⟨quit, left, right, up⟩ := inp
  simp only at hl
  subst hl
  have ht : thrust g.g_player_fuel ⟨quit, true, right, up⟩
      = (⟨0, ACC_OF_GRAVITY * (1 / 10), 0⟩, 0) := by
    unfold thrust
    simp [hf]
  rw [process_input_fuel, process_input_player, ht]
  exact ⟨rfl, rfl, rfl, by simp⟩

/-- C7. Fuel range invariant: a `process_input` call started with
`0 <= fuel <= INITIAL_FUEL` ends with `0 <= fuel' <= fuel`, for every input; so
does every sequence of frames of the main loop, whose fuel level therefore
stays in `[0, INITIAL_FUEL]`, and a longer run never has more fuel than a
shorter one. -/
theorem fuel_range_invariant {E : Type} (ops : EntityOps E) (inp : Input) (g : Globals E)
    (frames more : List (Input × ℚ)) (h0 : 0 ≤ g.g_player_fuel)
    (h1 : g.g_player_fuel ≤ INITIAL_FUEL) :
    (0 ≤ (process_input ops inp g).g_player_fuel ∧
        (process_input ops inp g).g_player_fuel ≤ g.g_player_fuel) ∧
      (0 ≤ (main_loop ops frames g).g_player_fuel ∧
        (main_loop ops frames g).g_player_fuel ≤ g.g_player_fuel ∧
        (main_loop ops frames g).g_player_fuel ≤ INITIAL_FUEL) ∧
      (main_loop ops (frames ++ more) g).g_player_fuel
        ≤ (main_loop ops frames g).g_player_fuel := by
  obtain ⟨m0, m1⟩ := main_loop_fuel_bounds ops frames g h0
  refine ⟨process_input_fuel_bounds ops inp g h0, ⟨m0, m1, le_trans m1 h1⟩, ?_⟩
  rw [main_loop_append]
  exact (main_loop_fuel_bounds ops more _ m0).2

/-- C8, as the code has it. A frame in which none of the left, right and up
inputs is held leaves the fuel level (never negative) as it was, whatever the
mission status; the fuel level after a frame is the one `process_input`
leaves, which does not depend on the mission status. -/
theorem fuel_unchanged_without_thrust {E : Type} (ops : EntityOps E) (inp : Input)
    (ticks : ℚ) (g : Globals E) (h0 : 0 ≤ g.g_player_fuel) (hl : inp.left = false)
    (hr : inp.right = false) (hu : inp.up = false) :
    (frame ops inp ticks g).g_player_fuel = g.g_player_fuel ∧
      ∀ status : MissionStatus,
        (frame ops inp ticks { g with g_mission_status := status }).g_player_fuel
          = g.g_player_fuel := by
  have key : ∀ g2 : Globals E, g2.g_player_fuel = g.g_player_fuel →
      (frame ops inp ticks g2).g_player_fuel = g.g_player_fuel := by
    intro g2 h2
    rw [frame_fuel, process_input_fuel, thrust_no_input _ inp hl hr hu, h2]
    exact if_neg (not_lt.mpr h0)
  exact ⟨key g rfl, fun status => key _ rfl⟩

/-- C9, as the code has it. A call of `update` started with a non-negative
accumulator and a non-negative frame delta stores a non-negative accumulator;
it is smaller than `FIXED_TIMESTEP` unless a step of this call set the status to
`FAILED`, and in that case, the loop being left before the subtraction, it is
at least `FIXED_TIMESTEP`. -/
theorem accumulator_bound {E : Type} (ops : EntityOps E) (ticks : ℚ) (g : Globals E)
    (hacc : 0 ≤ g.g_time_accumulator) (hdt : 0 ≤ ticks - g.g_previous_ticks) :
    0 ≤ (update ops ticks g).g_time_accumulator ∧
      (¬ (g.g_mission_status = MissionStatus.NONE ∧
          (update ops ticks g).g_mission_status = MissionStatus.FAILED) →
        (update ops ticks g).g_time_accumulator < FIXED_TIMESTEP) ∧
      (g.g_mission_status = MissionStatus.NONE →
        (update ops ticks g).g_mission_status = MissionStatus.FAILED →
        FIXED_TIMESTEP ≤ (update ops ticks g).g_time_accumulator) := by
  refine ⟨update_nonneg ops ticks g hacc hdt, ?_, ?_⟩
  · intro hno
    by_cases hg : g.g_mission_status = MissionStatus.NONE
    · obtain ⟨m, n, _, _, c3, _, c5⟩ := update_count ops ticks g hg
      cases hs : (update ops ticks g).g_mission_status with
      | NONE => exact (c3 hs).2
      | FAILED => exact absurd ⟨hg, hs⟩ hno
      | ACCOMPLISHED => exact (c5 hs).2.2
    · exact update_terminal_lt ops ticks g hg
  · intro hg hs
    obtain ⟨m, n, _, _, _, c4, _⟩ := update_count ops ticks g hg
    exact (c4 hs).2

/-- C6, on the code. With fuel 500, up and left held together set the
acceleration `(-1, 1, 0)`, of squared length 2, on the player, unclamped: the
movement vector that `process_input` normalises is not the acceleration.  Left
alone sets `(-1, ACC_OF_GRAVITY * 0.1, 0)` and up alone `(0, 1, 0)`, both of
smaller squared length. -/
theorem diagonal_acceleration_exceeds_single_axis :
    (thrust 500 ⟨false, true, false, true⟩).1 = ⟨-1, 1, 0⟩ ∧
      (process_input entity_ops ⟨false, true, false, true⟩ start_globals).player.m_acceleration
        = ⟨-1, 1, 0⟩ ∧
      (thrust 500 ⟨false, true, false, false⟩).1 = ⟨-1, ACC_OF_GRAVITY * (1 / 10), 0⟩ ∧
      (thrust 500 ⟨false, false, false, true⟩).1 = ⟨0, 1, 0⟩ ∧
      (thrust 500 ⟨false, true, false, true⟩).1.sqLength
        > (thrust 500 ⟨false, true, false, false⟩).1.sqLength ∧
      (thrust 500 ⟨false, true, false, true⟩).1.sqLength
        > (thrust 500 ⟨false, false, false, true⟩).1.sqLength := by
  have hd : thrust 500 ⟨false, true, false, true⟩ = (⟨-1, 1, 0⟩, 500 - 1 / 100 - 1 / 100) := by
    simp [thrust]
  have hl : thrust 500 ⟨false, true, false, false⟩
      = (⟨-1, ACC_OF_GRAVITY * (1 / 10), 0⟩, 500 - 1 / 100) := by
    simp [thrust]
  have hu : thrust 500 ⟨false, false, false, true⟩ = (⟨0, 1, 0⟩, 500 - 1 / 100) := by
    simp [thrust]
  refine ⟨by rw [hd], ?_, by rw [hl], by rw [hu], ?_, ?_⟩
  · rw [process_input_player]
    have hs : start_globals.g_player_fuel = 500 := rfl
    rw [hs, hd]
    simp [entity_ops, start_globals, initial_globals, start_player, entity_at, Vec3.sqLength]
  · rw [hd, hl]
    norm_num [Vec3.sqLength, ACC_OF_GRAVITY]
  · rw [hd, hu]
    norm_num [Vec3.sqLength]

/-! ## Counterexamples to the claims as they are written -/

/-- C4 as written fails. With fuel 500 and left and right both held (up not
held), the horizontal acceleration is -1, not 0, and the fuel goes down to
499.99, by the cost of one input, not of two. -/
theorem left_right_not_cancelled :
    (0 : ℚ) < start_globals.g_player_fuel ∧
      (thrust start_globals.g_player_fuel ⟨false, true, true, false⟩).1.x = -1 ∧
      (thrust start_globals.g_player_fuel ⟨false, true, true, false⟩).1.x ≠ 0 ∧
      (process_input entity_ops ⟨false, true, true, false⟩ start_globals).g_player_fuel
        = 49999 / 100 ∧
      (process_input entity_ops ⟨false, true, true, false⟩ start_globals).g_player_fuel
        ≠ max 0 (start_globals.g_player_fuel - 2 * (1 / 100)) := by
  have hs : start_globals.g_player_fuel = 500 := rfl
  have ht : thrust 500 ⟨false, true, true, false⟩
      = (⟨-1, ACC_OF_GRAVITY * (1 / 10), 0⟩, 500 - 1 / 100) := by
    simp [thrust]
  rw [process_input_fuel, hs, ht]
  norm_num

/-- C8 as written fails. With the mission `FAILED`, fuel 500 and the left input
held, the frame takes the fuel level down to 499.99. -/
theorem fuel_consumed_after_mission_end :
    (globals_at 0 0 0 MissionStatus.FAILED).g_mission_status = MissionStatus.FAILED ∧
      (globals_at 0 0 0 MissionStatus.FAILED).g_player_fuel = 500 ∧
      (frame entity_ops ⟨false, true, false, false⟩ (1 / 60)
        (globals_at 0 0 0 MissionStatus.FAILED)).g_player_fuel = 49999 / 100 ∧
      (frame entity_ops ⟨false, true, false, false⟩ (1 / 60)
        (globals_at 0 0 0 MissionStatus.FAILED)).g_player_fuel
        ≠ (globals_at 0 0 0 MissionStatus.FAILED).g_player_fuel := by
  have hs : (globals_at 0 0 0 MissionStatus.FAILED).g_player_fuel = 500 := rfl
  have ht : thrust 500 ⟨false, true, false, false⟩
      = (⟨-1, ACC_OF_GRAVITY * (1 / 10), 0⟩, 500 - 1 / 100) := by
    simp [thrust]
  rw [frame_fuel, process_input_fuel, hs, ht]
  refine ⟨rfl, rfl, ?_, ?_⟩ <;> norm_num

/-- C9 as written fails. From accumulator 0 with a frame delta of three
timesteps, a player that crosses the right border at its first step makes
`update` return with `FAILED` and the accumulator at 1/20, three timesteps, not
below `FIXED_TIMESTEP`. -/
theorem accumulator_keeps_timesteps_after_failure :
    0 ≤ (globals_at 5 0 1 MissionStatus.NONE).g_time_accumulator ∧
      0 ≤ 1 / 20 - (globals_at 5 0 1 MissionStatus.NONE).g_previous_ticks ∧
      (update entity_ops (1 / 20) (globals_at 5 0 1 MissionStatus.NONE)).g_mission_status
        = MissionStatus.FAILED ∧
      (update entity_ops (1 / 20) (globals_at 5 0 1 MissionStatus.NONE)).g_time_accumulator
        = 1 / 20 ∧
      ¬ ((update entity_ops (1 / 20)
          (globals_at 5 0 1 MissionStatus.NONE)).g_time_accumulator < FIXED_TIMESTEP) := by
  rw [update_crossing]
  refine ⟨le_refl _, ?_, rfl, rfl, ?_⟩
  · norm_num [globals_at, initial_globals]
  · norm_num [FIXED_TIMESTEP]

/-- C2 at a concrete run: a failed mission with every thrust input held. -/
theorem mission_status_terminal_witness :
    ((globals_at 0 0 0 MissionStatus.FAILED).g_mission_status = MissionStatus.FAILED ∨
        (globals_at 0 0 0 MissionStatus.FAILED).g_mission_status
          = MissionStatus.ACCOMPLISHED) ∧
      (main_loop entity_ops [(⟨false, true, true, true⟩, 1 / 60)]
          (globals_at 0 0 0 MissionStatus.FAILED)).g_mission_status
        = (globals_at 0 0 0 MissionStatus.FAILED).g_mission_status ∧
      (update entity_ops (1 / 60) (globals_at 0 0 0 MissionStatus.FAILED)).g_mission_status
        = (globals_at 0 0 0 MissionStatus.FAILED).g_mission_status ∧
      (while_loop entity_ops (globals_at 0 0 0 MissionStatus.FAILED) (1 / 30)).1.g_mission_status
        = (globals_at 0 0 0 MissionStatus.FAILED).g_mission_status :=
  ⟨Or.inl rfl,
    mission_status_terminal entity_ops (globals_at 0 0 0 MissionStatus.FAILED)
      [(⟨false, true, true, true⟩, 1 / 60)] (1 / 60) (1 / 30) (Or.inl rfl)⟩

/-- C3 at a concrete step: one that leaves the player on the corner `(5, 3.75)` of
the playfield, away from the platforms: the mission stays ongoing. -/
theorem simulation_step_outcome_witness :
    (globals_at 5 (15 / 4) 0 MissionStatus.NONE).g_mission_status = MissionStatus.NONE ∧
      (loop_body entity_ops (globals_at 5 (15 / 4) 0 MissionStatus.NONE)).1.g_mission_status
        = MissionStatus.NONE := by
  obtain ⟨hp, _, hin⟩ :=
    simulation_step_outcome entity_ops (globals_at 5 (15 / 4) 0 MissionStatus.NONE) rfl
  rw [hp] at hin
  refine ⟨rfl, (hin ?_).2 ?_⟩
  · norm_num [entity_ops, Entity.update, globals_at, initial_globals, entity_at,
      FIXED_TIMESTEP]
  · intro i
    fin_cases i <;>
      simp [entity_ops, Entity.check_collision, Entity.update, globals_at,
        initial_globals, start_platforms, entity_at, FIXED_TIMESTEP] <;>
      norm_num [abs_lt]

/-- C4 at a concrete call: left and right held together at the start, left wins. -/
theorem left_right_left_wins_witness :
    ((0 : ℚ) < start_globals.g_player_fuel ∧
        (⟨false, true, true, false⟩ : Input).left = true ∧
        (⟨false, true, true, false⟩ : Input).right = true ∧
        (⟨false, true, true, false⟩ : Input).up = false) ∧
      (thrust start_globals.g_player_fuel ⟨false, true, true, false⟩).1
        = ⟨-1, ACC_OF_GRAVITY * (1 / 10), 0⟩ ∧
      (process_input entity_ops ⟨false, true, true, false⟩ start_globals).g_player_fuel
        = max 0 (start_globals.g_player_fuel - 1 / 100) :=
  have hf : (0 : ℚ) < start_globals.g_player_fuel := by
    norm_num [start_globals, initial_globals, INITIAL_FUEL]
  ⟨⟨hf, rfl, rfl, rfl⟩,
    left_right_left_wins entity_ops ⟨false, true, true, false⟩ start_globals hf rfl rfl rfl⟩

/-- C5 at a concrete call: every thrust input held with an empty tank. -/
theorem exhausted_fuel_gravity_only_witness :
    (({ start_globals with g_player_fuel := 0 } : Globals Entity).g_player_fuel = 0 ∧
        (⟨false, true, true, true⟩ : Input).left = true) ∧
      (thrust 0 ⟨false, true, true, true⟩).1 = ⟨0, ACC_OF_GRAVITY * (1 / 10), 0⟩ ∧
      (process_input entity_ops ⟨false, true, true, true⟩
        { start_globals with g_player_fuel := 0 }).g_player_fuel = 0 :=
  have h := exhausted_fuel_gravity_only entity_ops ⟨false, true, true, true⟩
    { start_globals with g_player_fuel := 0 } rfl rfl
  ⟨⟨rfl, rfl⟩, h.1, h.2.2.2⟩

/-- C7 at a concrete run: frames from the start with left and up held. -/
theorem fuel_range_invariant_witness :
    (0 ≤ start_globals.g_player_fuel ∧ start_globals.g_player_fuel ≤ INITIAL_FUEL) ∧
      (0 ≤ (process_input entity_ops ⟨false, true, false, true⟩ start_globals).g_player_fuel ∧
        (process_input entity_ops ⟨false, true, false, true⟩ start_globals).g_player_fuel
          ≤ start_globals.g_player_fuel) ∧
      (0 ≤ (main_loop entity_ops [(⟨false, true, false, true⟩, 1 / 60)]
          start_globals).g_player_fuel ∧
        (main_loop entity_ops [(⟨false, true, false, true⟩, 1 / 60)]
          start_globals).g_player_fuel ≤ start_globals.g_player_fuel ∧
        (main_loop entity_ops [(⟨false, true, false, true⟩, 1 / 60)]
          start_globals).g_player_fuel ≤ INITIAL_FUEL) ∧
      (main_loop entity_ops ([(⟨false, true, false, true⟩, 1 / 60)]
          ++ [(⟨false, false, true, false⟩, 1 / 30)]) start_globals).g_player_fuel
        ≤ (main_loop entity_ops [(⟨false, true, false, true⟩, 1 / 60)]
          start_globals).g_player_fuel :=
  have h0 : 0 ≤ start_globals.g_player_fuel := by
    norm_num [start_globals, initial_globals, INITIAL_FUEL]
  have h1 : start_globals.g_player_fuel ≤ INITIAL_FUEL := le_refl _
  ⟨⟨h0, h1⟩,
    fuel_range_invariant entity_ops ⟨false, true, false, true⟩ start_globals
      [(⟨false, true, false, true⟩, 1 / 60)] [(⟨false, false, true, false⟩, 1 / 30)] h0 h1⟩

/-- C8 at a concrete frame: without thrust at the start the fuel keeps its level. -/
theorem fuel_unchanged_without_thrust_witness :
    (0 ≤ start_globals.g_player_fuel ∧ (⟨false, false, false, false⟩ : Input).left = false ∧
        (⟨false, false, false, false⟩ : Input).right = false ∧
        (⟨false, false, false, false⟩ : Input).up = false) ∧
      (frame entity_ops ⟨false, false, false, false⟩ (1 / 60) start_globals).g_player_fuel
        = start_globals.g_player_fuel :=
  have h0 : 0 ≤ start_globals.g_player_fuel := by
    norm_num [start_globals, initial_globals, INITIAL_FUEL]
  ⟨⟨h0, rfl, rfl, rfl⟩,
    (fuel_unchanged_without_thrust entity_ops ⟨false, false, false, false⟩ (1 / 60)
      start_globals h0 rfl rfl rfl).1⟩

/-- C9 at a concrete call: the player lands and the accumulator is below one
timestep. -/
theorem accumulator_bound_witness :
    (0 ≤ (globals_at 2 (-2) 0 MissionStatus.NONE).g_time_accumulator ∧
        0 ≤ 1 / 20 - (globals_at 2 (-2) 0 MissionStatus.NONE).g_previous_ticks) ∧
      0 ≤ (update entity_ops (1 / 20)
        (globals_at 2 (-2) 0 MissionStatus.NONE)).g_time_accumulator ∧
      (update entity_ops (1 / 20)
        (globals_at 2 (-2) 0 MissionStatus.NONE)).g_time_accumulator < FIXED_TIMESTEP :=
  have h0 : 0 ≤ (globals_at 2 (-2) 0 MissionStatus.NONE).g_time_accumulator := le_refl _
  have h1 : 0 ≤ 1 / 20 - (globals_at 2 (-2) 0 MissionStatus.NONE).g_previous_ticks := by
    norm_num [globals_at, initial_globals]
  have h := accumulator_bound entity_ops (1 / 20) (globals_at 2 (-2) 0 MissionStatus.NONE)
    h0 h1
  ⟨⟨h0, h1⟩, h.1, h.2.1 (by rw [update_landed]; rintro ⟨_, hs⟩; exact absurd hs (by decide))⟩

end LunarLander
